import Mathlib

/-!
Verification of the Asperic risk-graded reasoning pipeline.

Shallow embedding of the Python backend components:
`predictor.py` (Predictor / RiskClassifier), `situation_interpreter.py`
(SituationInterpreter / PolicyInterpreter), `reasoning_controller.py`
(ReasoningController / DepthController), `astra_brain.py` (AstraBrain /
ReasoningExecutor with DriftCheck and redaction), and
`intelligence.py` result post-processing.

External services (text generation, structured classification, embedding,
verification) are modelled as oracle parameters; numeric scores are
rationals; exceptions raised by external calls are modelled by explicit
failure constructors of the oracle types.
-/

namespace Asperic

/-! ## Python string primitives -/

/-- ASCII lower-casing of a character, as Python `str.lower` acts on
ASCII input. -/
def pyLowerChar (c : Char) : Char :=
  if 'A' ≤ c ∧ c ≤ 'Z' then Char.ofNat (c.toNat + 32) else c

/-- Python `str.lower` (ASCII fragment). -/
def pyLower (s : String) : String :=
  ⟨s.data.map pyLowerChar⟩

/-- Python whitespace characters used by `str.split()` / `str.strip()`
(ASCII fragment). -/
def isPyWhitespace (c : Char) : Bool :=
  c = ' ' ∨ c = '\t' ∨ c = '\n' ∨ c = '\r' ∨ c = '\x0b' ∨ c = '\x0c'

/-- `p` occurs at the head of `l` (plain list prefix test). -/
def isPrefixPlain : List Char → List Char → Bool
  | [], _ => true
  | _ :: _, [] => false
  | a :: as, b :: bs => a = b && isPrefixPlain as bs

/-- Python substring containment `pat in text`, on character lists. -/
def isInfixPlain (pat : List Char) : List Char → Bool
  | [] => pat.isEmpty
  | c :: rest => isPrefixPlain pat (c :: rest) || isInfixPlain pat rest

/-- Python `pat in s` on strings. -/
def containsSub (s pat : String) : Bool :=
  isInfixPlain pat.data s.data

/-- Python `str.split()` with no argument: split on whitespace runs,
dropping empty pieces.  `acc` holds the current word reversed. -/
def pyWordsAux (acc : List Char) : List Char → List (List Char)
  | [] => if acc.isEmpty then [] else [acc.reverse]
  | c :: rest =>
    if isPyWhitespace c then
      if acc.isEmpty then pyWordsAux [] rest
      else acc.reverse :: pyWordsAux [] rest
    else pyWordsAux (c :: acc) rest

/-- Words of a string under Python `str.split()`. -/
def pyWords (s : String) : List (List Char) :=
  pyWordsAux [] s.data

/-- Python `str.strip()` (ASCII whitespace fragment). -/
def pyStripList (l : List Char) : List Char :=
  ((l.dropWhile isPyWhitespace).reverse.dropWhile isPyWhitespace).reverse

/-- Python `str.strip()` on strings. -/
def pyStrip (s : String) : String :=
  ⟨pyStripList s.data⟩

/-- Rounding of a rational to two decimal places, modelling Python
`round(x, 2)`; ties round upwards here, which agrees with Python on every
non-tie value arising in the pipeline constants. -/
def round2 (q : ℚ) : ℚ :=
  ((⌊q * 100 + 1/2⌋ : ℤ) : ℚ) / 100

/-! ## RiskClassifier (`predictor.py`, class `Predictor`) -/

/-- High-risk domain keywords from `Predictor.__init__`. -/
def HIGH_RISK_KEYWORDS : List String :=
  ["legal", "law", "contract", "tax", "gst", "compliance",
   "finance", "investment", "money", "loan",
   "medical", "health", "diagnosis",
   "production", "deploy", "security", "authentication",
   "immigration", "visa", "exam", "certificate"]

/-- `Predictor._contains_sensitive_mask`. -/
def containsSensitiveMask (text : String) : Bool :=
  containsSub text "[SENSITIVE" || containsSub text "[DATA_MASK]"

/-- `Predictor._contains_high_risk_keywords` (applied to the lowered text). -/
def containsHighRiskKeywords (lowered : String) : Bool :=
  HIGH_RISK_KEYWORDS.any (fun k => containsSub lowered k)

/-- Outcome of the external consequence-classification call made by
`Predictor._llm_consequence_estimate`: either the call raised (network
failure or malformed JSON), or it returned a JSON object whose fields may
individually be absent (`none`). -/
inductive ConsequenceLLM where
  | exn : ConsequenceLLM
  | ok (route : Option String) (confidence : Option ℚ)
       (signals : Option (List String)) : ConsequenceLLM

/-- `Predictor._llm_consequence_estimate` combined with the `.get` defaults
applied by `predict`: on exception the hard-coded fallback dict
`{route: INFORMATIONAL, confidence: 0.3, signals: [llm_uncertain]}` is
returned; on success missing fields default to
`INFORMATIONAL` / `0.5` / `[]`. -/
def llmConsequenceEstimate (oracle : ConsequenceLLM) : String × ℚ × List String :=
  match oracle with
  | .exn => ("INFORMATIONAL", 3/10, ["llm_uncertain"])
  | .ok r c s => (r.getD "INFORMATIONAL", c.getD (1/2), s.getD [])

/-- Routing decision record returned by `Predictor.predict`
(spec name: RiskSignal). -/
structure RiskSignal where
  route : String
  confidence : ℚ
  signals : List String
  version : String
  deriving Repr, DecidableEq

/-- `Predictor.predict`: deterministic keyword heuristics, external
consequence estimation, then hard escalation rules. -/
def predict (oracle : ConsequenceLLM) (text : String) : RiskSignal :=
  let lowered := pyLower text
  let sig1 := if containsSensitiveMask text then ["sensitive_data_present"] else []
  let sig2 := if containsHighRiskKeywords lowered then ["high_risk_domain"] else []
  let est := llmConsequenceEstimate oracle
  let signals := sig1 ++ sig2 ++ est.2.2
  let route1 := if "high_risk_domain" ∈ signals then "ACCOUNTABILITY_REQUIRED" else est.1
  let route2 := if "decision_request" ∈ signals ∧ route1 = "INFORMATIONAL"
                then "DECISION_SUPPORT" else route1
  { route := route2
    confidence := round2 est.2.1
    signals := signals.dedup
    version := "v2.0-consequence-aware" }

/-! ## PolicyInterpreter (`situation_interpreter.py`, class `SituationInterpreter`) -/

/-- Immutable situation declaration passed to AstraBrain
(spec name: PolicyDecision). -/
structure SituationDecision where
  situation : String
  ruleset : String
  verification_required : Bool
  refusal_allowed : Bool
  explanation_required : Bool
  policy_version : String
  signals : List String
  deriving Repr, DecidableEq

/-- The static `SITUATION_RULES` table: route ↦
(ruleset, verification_required, refusal_allowed, explanation_required). -/
def SITUATION_RULES : List (String × String × Bool × Bool × Bool) :=
  [("LOW_STAKES", "relaxed", false, false, false),
   ("INFORMATIONAL", "standard", false, false, true),
   ("DECISION_SUPPORT", "strict", true, true, true),
   ("ACCOUNTABILITY_REQUIRED", "strict", true, true, true)]

/-- `SituationInterpreter.interpret`: hard signal overrides, confidence
guard, then policy table lookup with an INFORMATIONAL fail-safe. -/
def interpret (route : String) (confidence : ℚ) (signals : List String) :
    SituationDecision :=
  let r1 := if "regulatory_context" ∈ signals then "ACCOUNTABILITY_REQUIRED" else route
  let r2 := if "user_accountability" ∈ signals then "ACCOUNTABILITY_REQUIRED" else r1
  let r3 := if "decision_request" ∈ signals ∧ r2 = "INFORMATIONAL"
            then "DECISION_SUPPORT" else r2
  let r4 := if confidence < 2/5 ∧ (r3 = "DECISION_SUPPORT" ∨ r3 = "ACCOUNTABILITY_REQUIRED")
            then "ACCOUNTABILITY_REQUIRED" else r3
  match SITUATION_RULES.lookup r4 with
  | some rules =>
      { situation := r4
        ruleset := rules.1
        verification_required := rules.2.1
        refusal_allowed := rules.2.2.1
        explanation_required := rules.2.2.2
        policy_version := "v1.0-stable"
        signals := signals }
  | none =>
      { situation := "INFORMATIONAL"
        ruleset := "standard"
        verification_required := false
        refusal_allowed := false
        explanation_required := true
        policy_version := "v1.0-stable"
        signals := signals }

/-! ## DepthController (`reasoning_controller.py`, class `ReasoningController`) -/

/-- Immutable reasoning depth decision (spec name: ReasoningDecision). -/
structure ReasoningDecision where
  depth : String
  confidence : ℚ
  signals : List String
  controller_version : String
  deriving Repr, DecidableEq

/-- The canonical depth set `ReasoningController.DEPTHS`. -/
def DEPTHS : List String := ["NONE", "LIGHT", "STRUCTURED", "RIGOROUS"]

/-- `ReasoningController.RIGOROUS_TRIGGERS`. -/
def RIGOROUS_TRIGGERS : List String :=
  ["should i", "decide", "architecture", "design",
   "strategy", "risk", "production", "deploy",
   "legal", "tax", "finance", "investment",
   "medical", "diagnosis"]

/-- `ReasoningController.STRUCTURED_TRIGGERS`. -/
def STRUCTURED_TRIGGERS : List String :=
  ["how do i", "steps", "process", "compare",
   "difference", "explain", "analyze"]

/-- Python `\w` character class (ASCII fragment), used by the `\b` word
boundaries in the controller and redaction regexes. -/
def isWordChar (c : Char) : Bool :=
  c.isAlpha || c.isDigit || c = '_'

/-- `p` occurs at the head of `l` and is followed by a word boundary
(end of input or a non-word character); models `re.match(r"^p\b", l)`
for a pattern `p` ending in a word character. -/
def isPrefixBoundary : List Char → List Char → Bool
  | [], [] => true
  | [], c :: _ => !isWordChar c
  | _ :: _, [] => false
  | a :: as, b :: bs => a = b && isPrefixBoundary as bs

/-- The anchored alternation `^(what is|define|meaning of)\b` of
`ReasoningController._is_trivial`, applied to the lowered query. -/
def trivialStart (lowered : String) : Bool :=
  isPrefixBoundary "what is".data lowered.data ||
  isPrefixBoundary "define".data lowered.data ||
  isPrefixBoundary "meaning of".data lowered.data

/-- `ReasoningController._is_trivial`. -/
def isTrivial (query : String) : Bool :=
  decide ((pyWords query).length ≤ 5) && trivialStart (pyLower query)

/-- Outcome of the external depth-assessment call as seen by
`ReasoningController.decide`: `noClient` when no API key was configured,
`exn` when `_llm_assess_depth` raised (both yield the empty dict), or a
parsed JSON object whose `depth` / `confidence` values may be null and
whose `signals` value may fail the `isinstance(list)` check (`none`). -/
inductive DepthAssess where
  | noClient : DepthAssess
  | exn : DepthAssess
  | ok (depth : Option String) (confidence : Option ℚ)
       (signals : Option (List String)) : DepthAssess

/-- `ReasoningController._clamp` applied to the confidence value obtained
from the assessment dict (`none` models a value on which `float()` raises,
including Python `None`). -/
def clampConfidence : Option ℚ → ℚ
  | none => 1/2
  | some v => max 0 (min 1 (round2 v))

/-- `ReasoningController.decide`: trivial-query short-circuit, linguistic
trigger heuristics, optional external assessment, then hard overrides. -/
def decideDepth (oracle : DepthAssess) (query : String) : ReasoningDecision :=
  let lowered := pyLower query
  if isTrivial query then
    { depth := "NONE", confidence := 9/10, signals := ["trivial_query"],
      controller_version := "v1.1-cognitive-depth" }
  else
    let sig1 := if RIGOROUS_TRIGGERS.any (fun t => containsSub lowered t)
                then ["high_stakes_language"] else []
    let sig2 := if STRUCTURED_TRIGGERS.any (fun t => containsSub lowered t)
                then ["procedural_language"] else []
    let llm : Option String × Option ℚ × List String :=
      match oracle with
      | .noClient => (some "LIGHT", some (1/2), [])
      | .exn => (some "LIGHT", some (1/2), [])
      | .ok d c s => (d, c, s.getD [])
    let signals := sig1 ++ sig2 ++ llm.2.2
    let d1 : Option String := if "high_stakes_language" ∈ signals
                              then some "RIGOROUS" else llm.1
    let d2 : String := match d1 with
      | some d => if d ∈ DEPTHS then d else "LIGHT"
      | none => "LIGHT"
    { depth := d2
      confidence := clampConfidence llm.2.1
      signals := signals.dedup
      controller_version := "v1.1-cognitive-depth" }

/-! ## Redaction pass (`astra_brain.py`, `AstraBrain._security_scrub`) -/

/-- Character class `[\w\.-]` of the email regex. -/
def isEmailChar (c : Char) : Bool :=
  isWordChar c || c = '.' || c = '-'

/-- Hexadecimal digit class `[a-fA-F0-9]`. -/
def isHexChar (c : Char) : Bool :=
  ('0' ≤ c ∧ c ≤ '9') || ('a' ≤ c ∧ c ≤ 'f') || ('A' ≤ c ∧ c ≤ 'F')

/-- Test whether position `k` of `run` can serve as the final dot of the
domain part `[\w\.-]+\.\w+`: a dot preceded by at least one character and
followed by a word character. -/
def okDomSplit (run : List Char) (k : Nat) : Bool :=
  decide (1 ≤ k) && (run.get? k == some '.') &&
    (match run.get? (k + 1) with
     | some c => isWordChar c
     | none => false)

/-- Greedy backtracking search for the largest admissible dot position
`≤ k`, as the regex engine backtracks the first `[\w\.-]+` of the domain
from its longest extent. -/
def findDomSplit (run : List Char) : Nat → Option Nat
  | 0 => none
  | k + 1 => if okDomSplit run (k + 1) then some (k + 1) else findDomSplit run k

/-- Match the domain part `[\w\.-]+\.\w+` at the head of `l`, returning
the number of characters matched (leftmost-greedy semantics of CPython
`re`). -/
def matchDomain (l : List Char) : Option Nat :=
  let run := l.takeWhile isEmailChar
  match findDomSplit run run.length with
  | none => none
  | some k => some (k + 1 + ((run.drop (k + 1)).takeWhile isWordChar).length)

/-- Anchored match of `[\w\.-]+@[\w\.-]+\.\w+` at the head of `l`:
the greedy local part must consume the whole `[\w\.-]` run, which must be
non-empty and immediately followed by `@` and a matching domain. -/
def tryEmail (l : List Char) : Option Nat :=
  let run := l.takeWhile isEmailChar
  if run.isEmpty then none
  else
    match l.drop run.length with
    | '@' :: rest => (matchDomain rest).map (fun d => run.length + 1 + d)
    | _ => none

/-- Anchored match of `\b[a-fA-F0-9]{32,}\b` at the head of `l`, given the
character preceding `l` (if any): the greedy repetition must consume the
whole hex run, which must have length at least 32 and word boundaries on
both sides. -/
def tryHex (prev : Option Char) (l : List Char) : Option Nat :=
  let run := l.takeWhile isHexChar
  let leftOK := match prev with
    | none => true
    | some c => !isWordChar c
  let rightOK := match l.drop run.length with
    | [] => true
    | c :: _ => !isWordChar c
  if leftOK && decide (32 ≤ run.length) && rightOK then some run.length else none

/-- `re.sub` scanner: walk the text left to right, attempting an anchored
match at every position; on a match, emit the replacement and resume after
the matched characters.  `fuel` bounds the recursion (every match consumes
at least one character). -/
def subScan (att : Option Char → List Char → Option Nat) (repl : List Char) :
    Nat → Option Char → List Char → List Char
  | 0, _, l => l
  | _ + 1, _, [] => []
  | fuel + 1, prev, c :: rest =>
    match att prev (c :: rest) with
    | some n =>
        let matched := (c :: rest).take n
        let newPrev := match matched.getLast? with
          | some c' => some c'
          | none => prev
        repl ++ subScan att repl fuel newPrev ((c :: rest).drop n)
    | none => c :: subScan att repl fuel (some c) rest

/-- `re.sub(r'[\w\.-]+@[\w\.-]+\.\w+', '[SENSITIVE]', ·)`. -/
def subEmail (l : List Char) : List Char :=
  subScan (fun _ t => tryEmail t) "[SENSITIVE]".data l.length none l

/-- `re.sub(r'\b[a-fA-F0-9]{32,}\b', '[SENSITIVE]', ·)`. -/
def subHex (l : List Char) : List Char :=
  subScan tryHex "[SENSITIVE]".data l.length none l

/-- Python `text.replace("**", "")`: delete non-overlapping `**` pairs
left to right. -/
def removeStars : List Char → List Char
  | '*' :: '*' :: rest => removeStars rest
  | c :: rest => c :: removeStars rest
  | [] => []

/-- `AstraBrain._security_scrub`: mask email-like substrings, mask long
hex tokens, delete `**` pairs, then strip surrounding whitespace. -/
def securityScrub (s : String) : String :=
  ⟨pyStripList (removeStars (subHex (subEmail s.data)))⟩

/-! ## ReasoningExecutor (`astra_brain.py`, class `AstraBrain`) -/

/-- Semantic profile consumed by the executor (`semantic_engine.py`
output schema; the executor reads it through `.get` with default 0). -/
structure SemanticProfile where
  confusion : ℚ
  decision_intent : ℚ
  technicality : ℚ
  novelty : ℚ
  deriving Repr, DecidableEq

/-- `AstraBrain._select_explanation_mode`. -/
def selectExplanationMode (profile : Option SemanticProfile) : String :=
  match profile with
  | none => "NORMAL"
  | some p => if p.confusion > 3/4 ∨ p.technicality > 4/5 then "ELI5" else "NORMAL"

/-- `AstraBrain._system_prompt`: convert depth + mode into an execution
contract. -/
def systemPrompt (depth mode : String) : String :=
  if mode = "ELI5" then
    "Explain this in the simplest possible way.\nUse at most ONE core idea.\nAvoid jargon completely.\nAssume the user is confused, not ignorant."
  else if depth = "NONE" then
    "Provide a direct, concise factual answer. No explanation."
  else if depth = "LIGHT" then
    "Provide a short, clear explanation.\nAvoid deep analysis and unnecessary details."
  else if depth = "STRUCTURED" then
    "Explain step by step.\nUse simple structure and clear transitions."
  else if depth = "RIGOROUS" then
    "You are a senior professional expert.\nFollow this strict reasoning process:\n1. Define the problem precisely\n2. State assumptions explicitly\n3. Identify constraints and risks\n4. Reason step by step\n5. Reach a defensible conclusion\n6. State limits and uncertainty\nAvoid speculation."
  else
    "Provide a clear and accurate answer."

/-- The external text-generation service: system message and user prompt
to completion text. -/
def Gen : Type := String → String → String

/-- `AstraBrain._run_inference`: one generation call, whose stripped
completion is returned together with a one-entry log of
(system message, prompt) recording the call. -/
def runInference (gen : Gen) (prompt sysMsg : String) :
    String × List (String × String) :=
  (pyStrip (gen sysMsg prompt), [(sysMsg, prompt)])

/-- The user message assembled by `AstraBrain._execute_reasoning`. -/
def userMsg (context question : String) : String :=
  "--- CONTEXT ---\n" ++ context ++ "\n--- END CONTEXT ---\n\nQUESTION:\n" ++ question

/-- `AstraBrain._execute_reasoning`: select the explanation mode, build
the execution contract, and make a single generation call. -/
def executeReasoning (gen : Gen) (question context depth : String)
    (profile : Option SemanticProfile) : String × List (String × String) :=
  runInference gen (userMsg context question)
    (systemPrompt depth (selectExplanationMode profile))

/-- The corrective prompt of `AstraBrain._self_check`. -/
def retryPrompt (question : String) : String :=
  "Your previous answer drifted from the question.\nSimplify the answer and directly address the user’s intent." ++
  "\n\nQUESTION:\n" ++ question

/-- `AstraBrain._self_check`: compare question/answer similarity and retry
once on drift.  The embedding-based similarity computation is abstracted
as `simResult`; `none` models an exception raised while embedding or
comparing, which the surrounding `except` turns into returning the
original answer. -/
def selfCheck (gen : Gen) (simResult : Option ℚ) (question answer : String) :
    String × List (String × String) :=
  match simResult with
  | none => (answer, [])
  | some sim =>
    if sim < 55/100 then
      runInference gen (retryPrompt question) "Provide a simpler, more direct answer."
    else
      (answer, [])

/-- Verification record produced by `IntelligenceCore.verify`
(spec name: VerificationResult). -/
structure VerificationResult where
  status : String
  content : String
  confidence : ℚ
  gaps : List String
  deriving Repr, DecidableEq

/-- Post-processing applied by `IntelligenceCore._validate_facts` to the
parsed output of the external validation call (content, confidence and
gaps fields of the returned JSON object). -/
def validateFacts (validated_content : String) (confidence : ℚ)
    (gaps : List String) : VerificationResult :=
  let status := if confidence ≥ 7/10 ∧ gaps = [] ∧ validated_content ≠ ""
                then "VERIFIED" else "INSUFFICIENT"
  { status := status
    content := validated_content
    confidence := round2 confidence
    gaps := gaps }

/-- Refusal block of a refusal envelope. -/
structure Refusal where
  reason : String
  needed : List String
  why_it_matters : String
  deriving Repr, DecidableEq

/-- Terminal response record built by `AstraBrain` (spec name:
ResponseEnvelope).  `refusal = none` for answer envelopes. -/
structure Envelope where
  answer : String
  status : String
  confidence : String
  reasoning_depth : String
  refusal : Option Refusal
  assumptions : List String
  limits : List String
  next_steps : List String
  deriving Repr, DecidableEq

/-- `AstraBrain._build_response`. -/
def buildResponse (answer : String) (verification : Option VerificationResult)
    (depth : String) : Envelope :=
  let verified : Bool := match verification with
    | some v => v.status == "VERIFIED"
    | none => false
  { answer := answer
    status := if verified then "VERIFIED" else "CONDITIONAL"
    confidence := if verified then "High" else "Medium"
    reasoning_depth := depth
    refusal := none
    assumptions := if verified then ["External data assumed correct"] else []
    limits := match verification with
      | some v => v.gaps
      | none => []
    next_steps := [] }

/-- `AstraBrain._refusal_response`. -/
def refusalResponse (answer reason : String) (needed : List String)
    (why depth : String) : Envelope :=
  { answer := answer
    status := "REFUSED"
    confidence := "Low"
    reasoning_depth := depth
    refusal := some ⟨reason, needed, why⟩
    assumptions := []
    limits := needed
    next_steps := needed }

/-- Generation / drift-check / scrub segment of `AstraBrain.chat`
(steps 2–4), returning the envelope and the accumulated generation-call
log. -/
def chatGenerate (gen : Gen) (simResult : Option ℚ) (question context : String)
    (verification : Option VerificationResult) (depth : String)
    (profile : Option SemanticProfile) : Envelope × List (String × String) :=
  let raw := executeReasoning gen question context depth profile
  let checked := selfCheck gen simResult question raw.1
  let scrubbed := securityScrub checked.1
  let final := if scrubbed = "" then "I’m unable to produce a meaningful answer at this time."
               else scrubbed
  (buildResponse final verification depth, raw.2 ++ checked.2)

/-- `AstraBrain.chat`: policy-gated verification with refusal
short-circuits, then generation, drift check, scrub and response
building.  `verifyResult` is the record the verification collaborator
would return when consulted; the generation-call log is returned
alongside the envelope. -/
def chat (gen : Gen) (verifyResult : VerificationResult) (simResult : Option ℚ)
    (question : String) (situation : SituationDecision) (depth : String)
    (profile : Option SemanticProfile) : Envelope × List (String × String) :=
  if situation.verification_required then
    if verifyResult.status = "ERROR" ∧ situation.refusal_allowed then
      (refusalResponse "Verification failed. Cannot answer safely."
        "Verification error" verifyResult.gaps
        "This situation requires verified correctness." depth, [])
    else if verifyResult.status = "INSUFFICIENT" ∧ situation.refusal_allowed then
      (refusalResponse "Not enough verified information to answer safely."
        "Insufficient verification" verifyResult.gaps
        "This decision requires verifiable accuracy." depth, [])
    else
      chatGenerate gen simResult question verifyResult.content
        (some verifyResult) depth profile
  else
    chatGenerate gen simResult question "" none depth profile

/-- A concrete generation oracle used by concrete instances. -/
def genOk : Gen := fun _ _ => "ok"

/-! ## Arithmetic helper lemmas -/

lemma round2_three_tenths : round2 (3/10) = 3/10 := by
  have h : ⌊((3 : ℚ)/10 * 100 + 1/2)⌋ = (30 : ℤ) := by
    rw [Int.floor_eq_iff] <;> norm_num
  rw [round2, h]; norm_num

lemma round2_half : round2 (1/2) = 1/2 := by
  have h : ⌊((1 : ℚ)/2 * 100 + 1/2)⌋ = (50 : ℤ) := by
    rw [Int.floor_eq_iff] <;> norm_num
  rw [round2, h]; norm_num

lemma clampConfidence_half : clampConfidence (some (1/2)) = 1/2 := by
  rw [clampConfidence, round2_half]
  rw [min_eq_right (by norm_num), max_eq_right (by norm_num)]

lemma clampConfidence_inv_two : clampConfidence (some 2⁻¹) = 2⁻¹ := by
  have h : (2⁻¹ : ℚ) = 1/2 := by norm_num
  rw [h]; exact clampConfidence_half

/-! ## Theorems -/

/-- Claim C2 as stated is false at a concrete input: when the external
classification call raises, `predict` on the text `hello` returns route
`INFORMATIONAL` (not `ACCOUNTABILITY_REQUIRED`), confidence 0.3 (not 0.2),
and the tag `llm_uncertain` (never `llm:failure`). -/
theorem classifier_failure_counterexample :
    (predict ConsequenceLLM.exn "hello").route ≠ "ACCOUNTABILITY_REQUIRED" ∧
    (predict ConsequenceLLM.exn "hello").confidence ≠ 1/5 ∧
    "llm:failure" ∉ (predict ConsequenceLLM.exn "hello").signals ∧
    (predict ConsequenceLLM.exn "hello").route = "INFORMATIONAL" ∧
    (predict ConsequenceLLM.exn "hello").confidence = 3/10 := by
  have hs : containsSensitiveMask "hello" = false := by decide
  have hk : containsHighRiskKeywords (pyLower "hello") = false := by decide
  refine ⟨?_, ?_, ?_, ?_, ?_⟩ <;>
    simp [predict, llmConsequenceEstimate, hs, hk, round2_three_tenths] <;>
      norm_num

/-- Claim C2 (amended): for every input text, if the external
classification call fails or returns malformed output,
`RiskClassifier.predict` falls back to confidence 0.3 with the tag
`llm_uncertain`, and returns route `INFORMATIONAL` unless the
deterministic high-risk keyword heuristic escalates the route to
`ACCOUNTABILITY_REQUIRED`. -/
theorem classifier_failure_fallback (text : String) :
    (predict ConsequenceLLM.exn text).confidence = 3/10 ∧
    "llm_uncertain" ∈ (predict ConsequenceLLM.exn text).signals ∧
    (predict ConsequenceLLM.exn text).route =
      (if containsHighRiskKeywords (pyLower text) then "ACCOUNTABILITY_REQUIRED"
       else "INFORMATIONAL") := by
  by_cases hs : containsSensitiveMask text <;>
    by_cases hk : containsHighRiskKeywords (pyLower text) <;>
      simp [predict, llmConsequenceEstimate, hs, hk, round2_three_tenths]

/-- Claim C3: any input text containing a high-risk domain keyword
(case-insensitively) is routed `ACCOUNTABILITY_REQUIRED` by
`RiskClassifier.predict`, whatever the external classifier returned. -/
theorem high_risk_keyword_escalation (oracle : ConsequenceLLM) (text : String)
    (h : containsHighRiskKeywords (pyLower text) = true) :
    (predict oracle text).route = "ACCOUNTABILITY_REQUIRED" := by
  by_cases hs : containsSensitiveMask text <;>
    simp [predict, hs, h]

/-- Witness for C3: `Tax advice please` contains the keyword `tax`, and is
routed `ACCOUNTABILITY_REQUIRED` even though the external classifier
returned `LOW_STAKES`. -/
theorem high_risk_keyword_escalation_witness :
    containsHighRiskKeywords (pyLower "Tax advice please") = true ∧
    (predict (ConsequenceLLM.ok (some "LOW_STAKES") (some (9/10)) (some []))
      "Tax advice please").route = "ACCOUNTABILITY_REQUIRED" :=
  ⟨by decide,
   high_risk_keyword_escalation
     (ConsequenceLLM.ok (some "LOW_STAKES") (some (9/10)) (some []))
     "Tax advice please" (by decide)⟩

/-- Claim C4: whenever the classifier signals include `regulatory_context`
or `user_accountability`, `PolicyInterpreter.interpret` yields situation
`ACCOUNTABILITY_REQUIRED`, for every classified route and confidence. -/
theorem signal_escalation_accountability (route : String) (confidence : ℚ)
    (signals : List String)
    (h : "regulatory_context" ∈ signals ∨ "user_accountability" ∈ signals) :
    (interpret route confidence signals).situation = "ACCOUNTABILITY_REQUIRED" := by
  have hl : SITUATION_RULES.lookup "ACCOUNTABILITY_REQUIRED" =
      some ("strict", true, true, true) := by decide
  rcases h with h | h <;>
    by_cases h2 : "regulatory_context" ∈ signals <;>
      by_cases h3 : "user_accountability" ∈ signals <;>
        simp_all [interpret, hl]

/-- Witness for C4: a `LOW_STAKES` classification with high confidence and
the single signal `regulatory_context` resolves to
`ACCOUNTABILITY_REQUIRED`. -/
theorem signal_escalation_accountability_witness :
    (interpret "LOW_STAKES" (9/10) ["regulatory_context"]).situation =
      "ACCOUNTABILITY_REQUIRED" :=
  signal_escalation_accountability "LOW_STAKES" (9/10) ["regulatory_context"]
    (Or.inl (by decide))

/-- Claim C5 as stated is false at a concrete input: the verifier can
report `INSUFFICIENT` with an empty gaps list (validation confidence below
0.7 with no gaps), and the resulting refusal envelope then has status
`REFUSED` but an empty `needed` list. -/
theorem refusal_needed_counterexample :
    (validateFacts "Paris is in France" (1/2) []).status = "INSUFFICIENT" ∧
    (interpret "ACCOUNTABILITY_REQUIRED" (9/10) []).verification_required = true ∧
    (interpret "ACCOUNTABILITY_REQUIRED" (9/10) []).refusal_allowed = true ∧
    (chat genOk (validateFacts "Paris is in France" (1/2) []) none "q"
      (interpret "ACCOUNTABILITY_REQUIRED" (9/10) []) "LIGHT" none).1.status =
      "REFUSED" ∧
    ((chat genOk (validateFacts "Paris is in France" (1/2) []) none "q"
      (interpret "ACCOUNTABILITY_REQUIRED" (9/10) []) "LIGHT" none).1.refusal.map
        Refusal.needed) = some [] := by
  have hv : validateFacts "Paris is in France" (1/2) [] =
      { status := "INSUFFICIENT", content := "Paris is in France",
        confidence := 1/2, gaps := [] } := by
    simp only [validateFacts]
    norm_num [round2_half]
  have hsit : interpret "ACCOUNTABILITY_REQUIRED" (9/10) [] =
      { situation := "ACCOUNTABILITY_REQUIRED", ruleset := "strict",
        verification_required := true, refusal_allowed := true,
        explanation_required := true, policy_version := "v1.0-stable",
        signals := [] } := by
    have hl : SITUATION_RULES.lookup "ACCOUNTABILITY_REQUIRED" =
        some ("strict", true, true, true) := by decide
    have hc : ¬((9 : ℚ)/10 < 2/5) := by norm_num
    simp [interpret, hl, hc]
  rw [hv, hsit]
  refine ⟨rfl, rfl, rfl, ?_, ?_⟩ <;>
    simp [chat, refusalResponse]

/-- Claim C5 (amended): whenever verification is required, the
verification result has status `INSUFFICIENT`, and the policy allows
refusal, the executor returns the fixed refusal envelope: status
`REFUSED`, reason `Insufficient verification`, a `why_it_matters` field,
`needed` equal to the verifier's gaps list (non-empty exactly when the
verifier reported gaps), an `answer` field holding only the fixed refusal
notice, and no generation call is made. -/
theorem insufficient_verification_refusal (gen : Gen) (simR : Option ℚ)
    (q : String) (sit : SituationDecision) (depth : String)
    (profile : Option SemanticProfile) (v : VerificationResult)
    (h1 : sit.verification_required = true)
    (h2 : v.status = "INSUFFICIENT")
    (h3 : sit.refusal_allowed = true) :
    chat gen v simR q sit depth profile =
      (refusalResponse "Not enough verified information to answer safely."
        "Insufficient verification" v.gaps
        "This decision requires verifiable accuracy." depth, []) ∧
    (chat gen v simR q sit depth profile).1.status = "REFUSED" ∧
    (chat gen v simR q sit depth profile).1.refusal =
      some ⟨"Insufficient verification", v.gaps,
            "This decision requires verifiable accuracy."⟩ ∧
    (chat gen v simR q sit depth profile).1.answer =
      "Not enough verified information to answer safely." ∧
    (chat gen v simR q sit depth profile).2 = [] := by
  have hne : v.status ≠ "ERROR" := by rw [h2]; decide
  have hc : chat gen v simR q sit depth profile =
      (refusalResponse "Not enough verified information to answer safely."
        "Insufficient verification" v.gaps
        "This decision requires verifiable accuracy." depth, []) := by
    simp [chat, h1, h2, h3, hne]
  refine ⟨hc, ?_, ?_, ?_, ?_⟩ <;> rw [hc] <;> rfl

/-- Witness for C5 (amended): a strict policy, an `INSUFFICIENT`
verification with one gap, and the resulting concrete refusal envelope. -/
theorem insufficient_verification_refusal_witness :
    chat genOk
      { status := "INSUFFICIENT", content := "", confidence := 0,
        gaps := ["No relevant external data found"] }
      none "q"
      { situation := "ACCOUNTABILITY_REQUIRED", ruleset := "strict",
        verification_required := true, refusal_allowed := true,
        explanation_required := true, policy_version := "v1.0-stable",
        signals := [] }
      "LIGHT" none =
      (refusalResponse "Not enough verified information to answer safely."
        "Insufficient verification" ["No relevant external data found"]
        "This decision requires verifiable accuracy." "LIGHT", []) :=
  (insufficient_verification_refusal genOk none "q" _ "LIGHT" none _
    rfl rfl rfl).1

/-- The drift check makes at most one generation call. -/
lemma selfCheck_log_length (gen : Gen) (simR : Option ℚ) (q a : String) :
    (selfCheck gen simR q a).2.length ≤ 1 := by
  rcases simR with _ | s
  · simp [selfCheck]
  · by_cases h : s < 55/100 <;> simp [selfCheck, runInference, h]

/-- The generation segment of `chat` makes at most two generation calls. -/
lemma chatGenerate_log_length (gen : Gen) (simR : Option ℚ) (q ctx : String)
    (ver : Option VerificationResult) (depth : String)
    (profile : Option SemanticProfile) :
    (chatGenerate gen simR q ctx ver depth profile).2.length ≤ 2 := by
  have h := selfCheck_log_length gen simR q
    (executeReasoning gen q ctx depth profile).1
  simp only [chatGenerate, executeReasoning, runInference, List.length_append]
  simp only [executeReasoning, runInference] at h
  simpa using by omega

/-- Claim C6: per request the generation service is called at most twice;
when the similarity computation succeeds with a value below 0.55 the drift
check issues exactly one corrective regeneration and returns its result
unconditionally; when the similarity computation raises, the original
answer is returned unchanged with no extra call. -/
theorem drift_check_behaviour :
    (∀ (gen : Gen) (v : VerificationResult) (simR : Option ℚ) (q : String)
       (sit : SituationDecision) (depth : String)
       (profile : Option SemanticProfile),
       (chat gen v simR q sit depth profile).2.length ≤ 2) ∧
    (∀ (gen : Gen) (s : ℚ) (q a : String), s < 55/100 →
       selfCheck gen (some s) q a =
         (pyStrip (gen "Provide a simpler, more direct answer." (retryPrompt q)),
          [("Provide a simpler, more direct answer.", retryPrompt q)])) ∧
    (∀ (gen : Gen) (q a : String), selfCheck gen none q a = (a, [])) := by
  refine ⟨?_, ?_, ?_⟩
  · intro gen v simR q sit depth profile
    by_cases h1 : sit.verification_required
    · by_cases h2 : v.status = "ERROR" ∧ sit.refusal_allowed
      · simp [chat, h1, h2]
      · by_cases h3 : v.status = "INSUFFICIENT" ∧ sit.refusal_allowed
        · simp [chat, h1, h2, h3]
        · simpa [chat, h1, h2, h3] using
            chatGenerate_log_length gen simR q v.content (some v) depth profile
    · simpa [chat, h1] using
        chatGenerate_log_length gen simR q "" none depth profile
  · intro gen s q a h
    simp [selfCheck, runInference, h]
  · intro gen q a
    simp [selfCheck]

/-- Witness for C6: with a similarity of 0.3 the drift check performs the
single corrective call; with a raising similarity computation the answer
passes through; a full `chat` run logs at most two calls. -/
theorem drift_check_behaviour_witness :
    (chat genOk (validateFacts "x" 1 []) (some (3/10)) "q"
      { situation := "LOW_STAKES", ruleset := "relaxed",
        verification_required := false, refusal_allowed := false,
        explanation_required := false, policy_version := "v1.0-stable",
        signals := [] } "LIGHT" none).2.length ≤ 2 ∧
    selfCheck genOk (some (3/10)) "q" "a" =
      (pyStrip (genOk "Provide a simpler, more direct answer." (retryPrompt "q")),
       [("Provide a simpler, more direct answer.", retryPrompt "q")]) ∧
    selfCheck genOk none "q" "a" = ("a", []) :=
  ⟨drift_check_behaviour.1 genOk (validateFacts "x" 1 []) (some (3/10)) "q" _
     "LIGHT" none,
   drift_check_behaviour.2.1 genOk (3/10) "q" "a" (by norm_num),
   drift_check_behaviour.2.2 genOk "q" "a"⟩

/-- Claim C7 as stated is false at a concrete input: on a query with no
heuristic cues and no external assessment available (a call with no
semantic profile involved), `decide` returns confidence 0.5 (not 0.4) and
an empty signal list — the signal `fallback:no_semantic_profile` does not
occur. -/
theorem depth_fallback_counterexample :
    (decideDepth DepthAssess.noClient "hello there friend").depth = "LIGHT" ∧
    (decideDepth DepthAssess.noClient "hello there friend").confidence ≠ 2/5 ∧
    (decideDepth DepthAssess.noClient "hello there friend").confidence = 1/2 ∧
    "fallback:no_semantic_profile" ∉
      (decideDepth DepthAssess.noClient "hello there friend").signals := by
  have ht : isTrivial "hello there friend" = false := by decide
  have h1 : RIGOROUS_TRIGGERS.any
      (fun t => containsSub (pyLower "hello there friend") t) = false := by decide
  have h2 : STRUCTURED_TRIGGERS.any
      (fun t => containsSub (pyLower "hello there friend") t) = false := by decide
  refine ⟨?_, ?_, ?_, ?_⟩ <;>
    simp [decideDepth, ht, h1, h2, clampConfidence_half, clampConfidence_inv_two,
      DEPTHS] <;> norm_num

/-- Claim C7 (amended): the depth controller takes no semantic profile;
when the external depth assessment is unavailable (no client) or raises,
and neither the trivial-query check nor a linguistic trigger fires,
`decide` returns depth `LIGHT`, confidence 0.5, and an empty signal list
(no `fallback:no_semantic_profile` signal exists in the code). -/
theorem depth_controller_fallback (oracle : DepthAssess) (query : String)
    (ho : oracle = DepthAssess.noClient ∨ oracle = DepthAssess.exn)
    (ht : isTrivial query = false)
    (h1 : RIGOROUS_TRIGGERS.any (fun t => containsSub (pyLower query) t) = false)
    (h2 : STRUCTURED_TRIGGERS.any (fun t => containsSub (pyLower query) t) = false) :
    decideDepth oracle query =
      { depth := "LIGHT", confidence := 1/2, signals := [],
        controller_version := "v1.1-cognitive-depth" } := by
  rcases ho with ho | ho <;> subst ho <;>
    simp [decideDepth, ht, h1, h2, clampConfidence_half, clampConfidence_inv_two,
      DEPTHS]

/-- Witness for C7 (amended): the fallback decision on a plain greeting
with no assessment client. -/
theorem depth_controller_fallback_witness :
    decideDepth DepthAssess.noClient "hello there friend" =
      { depth := "LIGHT", confidence := 1/2, signals := [],
        controller_version := "v1.1-cognitive-depth" } :=
  depth_controller_fallback DepthAssess.noClient "hello there friend"
    (Or.inl rfl) (by decide) (by decide) (by decide)

/-- Claim C8 as stated is false at a concrete input: the redaction pass is
not idempotent — on `x**@**y.com` one application yields `x@y.com`
(deleting the `**` pairs exposes an email-like substring), and a second
application masks it; moreover IP-address-like substrings are not masked
at all. -/
theorem redaction_idempotence_counterexample :
    securityScrub (securityScrub "x**@**y.com") ≠ securityScrub "x**@**y.com" ∧
    securityScrub "x**@**y.com" = "x@y.com" ∧
    securityScrub (securityScrub "x**@**y.com") = "[SENSITIVE]" ∧
    securityScrub "192.168.0.1" = "192.168.0.1" := by
  refine ⟨?_, ?_, ?_, ?_⟩ <;> decide

/-- Claim C8 (amended): a single application of the redaction pass masks
email-like and long-hex-token-like substrings and deletes `**` emphasis
pairs, as exhibited on representative inputs; it performs no IP-address
masking, and it is not idempotent, because deleting `**` pairs can expose
a new maskable substring that only a second application masks. -/
theorem redaction_behaviour :
    securityScrub "contact a@b.com now" = "contact [SENSITIVE] now" ∧
    securityScrub "abcdef0123456789abcdef0123456789" = "[SENSITIVE]" ∧
    securityScrub "a**b c" = "ab c" ∧
    securityScrub "192.168.0.1" = "192.168.0.1" ∧
    securityScrub (securityScrub "x**@**y.com") ≠ securityScrub "x**@**y.com" := by
  refine ⟨?_, ?_, ?_, ?_, ?_⟩ <;> decide

/-- Claim C9: for every semantic profile with confusion above 0.75 or
technicality above 0.8 the executor selects the `ELI5` explanation mode,
and the full generation request (system prompt and user message, hence
the generation-call log) is identical for all declared depths. -/
theorem eli5_overrides_depth (gen : Gen) (q ctx d₁ d₂ : String)
    (p : SemanticProfile)
    (h : p.confusion > 3/4 ∨ p.technicality > 4/5) :
    selectExplanationMode (some p) = "ELI5" ∧
    executeReasoning gen q ctx d₁ (some p) =
      executeReasoning gen q ctx d₂ (some p) := by
  have hm : selectExplanationMode (some p) = "ELI5" := by
    simp [selectExplanationMode, h]
  refine ⟨hm, ?_⟩
  simp [executeReasoning, runInference, hm, systemPrompt]

/-- Witness for C9: a profile with confusion 0.8 forces the `ELI5` prompt
and makes the depths `NONE` and `RIGOROUS` indistinguishable. -/
theorem eli5_overrides_depth_witness :
    selectExplanationMode
      (some { confusion := 4/5, decision_intent := 0, technicality := 0,
              novelty := 0 }) = "ELI5" ∧
    executeReasoning genOk "q" "" "NONE"
      (some { confusion := 4/5, decision_intent := 0, technicality := 0,
              novelty := 0 }) =
    executeReasoning genOk "q" "" "RIGOROUS"
      (some { confusion := 4/5, decision_intent := 0, technicality := 0,
              novelty := 0 }) :=
  eli5_overrides_depth genOk "q" "" "NONE" "RIGOROUS" _
    (Or.inl (by norm_num))

/-- Claim C10 as stated is false at a concrete input: the lowercased query
`defined terms` begins with `define` and has at most five words, yet the
controller does not treat it as trivial (the regex requires a word
boundary after the prefix) and does not return depth `NONE`. -/
theorem trivial_query_counterexample :
    isPrefixPlain "define".data (pyLower "defined terms").data = true ∧
    (pyWords "defined terms").length ≤ 5 ∧
    (decideDepth DepthAssess.noClient "defined terms").depth = "LIGHT" ∧
    (decideDepth DepthAssess.noClient "defined terms").depth ≠ "NONE" ∧
    (decideDepth DepthAssess.noClient "defined terms").signals ≠
      ["trivial_query"] := by
  refine ⟨?_, ?_, ?_, ?_, ?_⟩ <;> decide

/-- Claim C10 (amended): for every query of at most five
whitespace-separated words whose lowercased form begins with `what is`,
`define`, or `meaning of` followed by a word boundary (end of string or a
non-word character), the depth controller short-circuits before the
external classification call — the result is independent of the
assessment oracle — and returns depth `NONE`, confidence 0.9, and the
single signal `trivial_query`. -/
theorem trivial_query_short_circuit (oracle : DepthAssess) (query : String)
    (h1 : (pyWords query).length ≤ 5)
    (h2 : trivialStart (pyLower query) = true) :
    decideDepth oracle query =
      { depth := "NONE", confidence := 9/10, signals := ["trivial_query"],
        controller_version := "v1.1-cognitive-depth" } := by
  have ht : isTrivial query = true := by
    simp [isTrivial, h1, h2]
  simp [decideDepth, ht]

/-- Witness for C10 (amended): `what is love` is trivial and yields the
`NONE` decision even under an oracle that would report `RIGOROUS`. -/
theorem trivial_query_short_circuit_witness :
    decideDepth (DepthAssess.ok (some "RIGOROUS") (some 1) (some ["risk"]))
      "what is love" =
      { depth := "NONE", confidence := 9/10, signals := ["trivial_query"],
        controller_version := "v1.1-cognitive-depth" } :=
  trivial_query_short_circuit
    (DepthAssess.ok (some "RIGOROUS") (some 1) (some ["risk"]))
    "what is love" (by decide) (by decide)

/-- Claim C1 as stated is false at a concrete input: at depth `RIGOROUS`
the executor makes exactly one generation call — there is no three-pass
Analysis/Critique/Synthesis sequence (and hence no inter-pass budget
check or fallback). -/
theorem rigorous_three_pass_counterexample :
    (executeReasoning genOk "q" "" "RIGOROUS" none).2.length = 1 ∧
    (executeReasoning genOk "q" "" "RIGOROUS" none).2.length ≠ 3 := by
  refine ⟨?_, ?_⟩ <;> decide

/-- Claim C1 (amended): for every request executed at depth `RIGOROUS`
(with a profile that does not force the `ELI5` mode), the executor makes
exactly one generation call, whose system prompt is the fixed six-step
rigorous reasoning contract; no multi-pass sequence, budget check, or
fallback to `STRUCTURED` exists. -/
theorem rigorous_is_single_pass (gen : Gen) (q ctx : String)
    (profile : Option SemanticProfile)
    (h : selectExplanationMode profile = "NORMAL") :
    (executeReasoning gen q ctx "RIGOROUS" profile).2 =
      [("You are a senior professional expert.\nFollow this strict reasoning process:\n1. Define the problem precisely\n2. State assumptions explicitly\n3. Identify constraints and risks\n4. Reason step by step\n5. Reach a defensible conclusion\n6. State limits and uncertainty\nAvoid speculation.",
        userMsg ctx q)] := by
  simp [executeReasoning, runInference, h, systemPrompt]

/-- Witness for C1 (amended): the single rigorous-contract generation
call on a concrete request with no semantic profile. -/
theorem rigorous_is_single_pass_witness :
    selectExplanationMode (none : Option SemanticProfile) = "NORMAL" ∧
    (executeReasoning genOk "q" "" "RIGOROUS" none).2 =
      [("You are a senior professional expert.\nFollow this strict reasoning process:\n1. Define the problem precisely\n2. State assumptions explicitly\n3. Identify constraints and risks\n4. Reason step by step\n5. Reach a defensible conclusion\n6. State limits and uncertainty\nAvoid speculation.",
        userMsg "" "q")] :=
  ⟨rfl, rigorous_is_single_pass genOk "q" "" none rfl⟩

end Asperic
